import Mathlib

/-!
Shallow embedding of the CSV bulk-upload pipeline of
`src/components/tables/CsvUpload.tsx` (students table): the row validator
`validateStudentData`, the per-row type coercion performed in
`handleUpload` (`processedRows`), the `created_at` stamping, the
validation gate in front of the bulk insert, and the classification of
bulk-insert failure messages.

Rows parsed by the CSV library (header mode) are maps from column name to
string value; we embed them as association lists `List (String × String)`
in column order.  JavaScript runtime primitives used by the component
(`Number`, `JSON.parse`, `new Date(...).toISOString`, `String.prototype`
helpers, truthiness) are modelled below; numbers are modelled as exact
rationals (the float64 rounding of the host is abstracted, no claim
depends on it).
-/

namespace CsvPipeline

/-- ASCII decimal digit test. -/
def isAsciiDigit (c : Char) : Bool :=
  '0' ≤ c && c ≤ '9'

/-- Model of the JavaScript whitespace class used by `Number` / `trim`
(the common ASCII whitespace characters plus NBSP and BOM; the exotic
Unicode `Zs` code points never occur in the inputs considered here). -/
def isJsSpaceChar (c : Char) : Bool :=
  c == ' ' || c == '\t' || c == '\n' || c == '\r' ||
  c == Char.ofNat 11 || c == Char.ofNat 12 ||
  c == Char.ofNat 0xa0 || c == Char.ofNat 0xfeff

/-- Strip leading and trailing JS whitespace from a character list. -/
def jsTrimChars (cs : List Char) : List Char :=
  ((cs.dropWhile isJsSpaceChar).reverse.dropWhile isJsSpaceChar).reverse

/-- Model of `String.prototype.trim`. -/
def jsTrim (s : String) : String :=
  String.mk (jsTrimChars s.toList)

/-- Split a character list at every occurrence of the separator character
(model of `String.prototype.split` with a one-character separator). -/
def splitOnCharList (sep : Char) : List Char → List (List Char)
  | [] => [[]]
  | c :: rest =>
    let r := splitOnCharList sep rest
    if c == sep then [] :: r
    else
      match r with
      | [] => [[c]]
      | h :: t => (c :: h) :: t

/-- Whether `sub` occurs contiguously inside `hay`. -/
def containsSubList (hay sub : List Char) : Bool :=
  match hay with
  | [] => sub.isEmpty
  | _ :: t => sub.isPrefixOf hay || containsSubList t sub

/-- An exact rational in lowest terms: the value a JavaScript number
takes, with the float64 rounding of the host abstracted away (no claim
depends on rounding). -/
structure ExactRat where
  num : Int
  den : Nat
deriving DecidableEq, Repr

/-- Build an `ExactRat` in lowest terms from a numerator and a positive
denominator. -/
def normRat (num : Int) (den : Nat) : ExactRat :=
  let g := Nat.gcd num.natAbs den
  if g = 0 then ⟨0, 1⟩
  else
    let na : Nat := num.natAbs / g
    ⟨if num < 0 then -(na : Int) else (na : Int), den / g⟩

/-- Result of JavaScript numeric conversion when it is not `NaN`:
either a finite value or an infinity. -/
inductive JsNum where
  | finite (q : ExactRat)
  | posInf
  | negInf
deriving DecidableEq, Repr

/-- Value `digits * 10 ^ expo / 10 ^ fracLen` of a decimal literal whose
digit string (integer and fraction digits concatenated) reads `digits`,
with `fracLen` fraction digits and exponent `expo`. -/
def decimalValue (digits : Nat) (fracLen : Nat) (expo : Int) : ExactRat :=
  match expo with
  | Int.ofNat k => normRat ((digits * 10 ^ k : Nat) : Int) (10 ^ fracLen)
  | Int.negSucc k => normRat (digits : Int) (10 ^ fracLen * 10 ^ (k + 1))

/-- Negation on `ExactRat`. -/
def ExactRat.neg (q : ExactRat) : ExactRat :=
  ⟨-q.num, q.den⟩

/-- Numeric value of a digit list read in the given radix, `none` when the
list is empty or holds a character outside the radix. -/
def digitsToNat? (radix : Nat) (cs : List Char) : Option Nat :=
  match cs with
  | [] => none
  | _ =>
    cs.foldl (fun acc c =>
      match acc with
      | none => none
      | some n =>
        let d :=
          if isAsciiDigit c then some (c.toNat - 48)
          else if 'a' ≤ c && c ≤ 'f' then some (c.toNat - 87)
          else if 'A' ≤ c && c ≤ 'F' then some (c.toNat - 55)
          else none
        match d with
        | some v => if v < radix then some (n * radix + v) else none
        | none => none) (some 0)

/-- Value of a decimal-digit list (empty list reads as 0; callers enforce
non-emptiness where the grammar requires it). -/
def decDigitsVal (cs : List Char) : Nat :=
  cs.foldl (fun acc c => acc * 10 + (c.toNat - 48)) 0

/-- Parse the optional exponent part of a decimal literal; the whole rest
of the input must be consumed (`Number` anchors at the end of the string). -/
def parseExponentRest (cs : List Char) : Option Int :=
  match cs with
  | [] => some 0
  | e :: rest =>
    if e == 'e' || e == 'E' then
      let (sign, ds) :=
        match rest with
        | '+' :: r => ((1 : Int), r)
        | '-' :: r => ((-1 : Int), r)
        | r => ((1 : Int), r)
      let (digs, leftover) := ds.span isAsciiDigit
      if digs.isEmpty || !leftover.isEmpty then none
      else some (sign * (decDigitsVal digs : Int))
    else none

/-- Parse an unsigned decimal literal (ECMAScript `StrUnsignedDecimalLiteral`
without `Infinity`) covering the whole input; exact rational value. -/
def parseDecLit (cs : List Char) : Option ExactRat :=
  let (intPart, r1) := cs.span isAsciiDigit
  match r1 with
  | '.' :: r2 =>
    let (fracPart, r3) := r2.span isAsciiDigit
    if intPart.isEmpty && fracPart.isEmpty then none
    else
      (parseExponentRest r3).map (fun e =>
        decimalValue (decDigitsVal (intPart ++ fracPart)) fracPart.length e)
  | _ =>
    if intPart.isEmpty then none
    else
      (parseExponentRest r1).map (fun e =>
        decimalValue (decDigitsVal intPart) 0 e)

/-- Parse a signed decimal literal or `Infinity`, whole input. -/
def parseSignedDec (cs : List Char) : Option JsNum :=
  let (neg, body) :=
    match cs with
    | '+' :: r => (false, r)
    | '-' :: r => (true, r)
    | r => (false, r)
  if body = "Infinity".toList then
    some (if neg then JsNum.negInf else JsNum.posInf)
  else
    (parseDecLit body).map (fun q => JsNum.finite (if neg then q.neg else q))

/-- Parse a `0x` / `0o` / `0b` non-decimal integer literal, whole input
(signs are not allowed on these, per the `Number` grammar). -/
def parseNonDecimal (cs : List Char) : Option JsNum :=
  match cs with
  | '0' :: c :: rest =>
    let radix :=
      if c == 'x' || c == 'X' then some 16
      else if c == 'o' || c == 'O' then some 8
      else if c == 'b' || c == 'B' then some 2
      else none
    match radix with
    | some r => (digitsToNat? r rest).map (fun n => JsNum.finite ⟨(n : Int), 1⟩)
    | none => none
  | _ => none

/-- Model of JavaScript `Number(s)` on a string: `none` means `NaN`.
The empty / all-whitespace string converts to `0`. -/
def jsStrToNumber (s : String) : Option JsNum :=
  let cs := jsTrimChars s.toList
  if cs.isEmpty then some (JsNum.finite ⟨0, 1⟩)
  else
    match parseNonDecimal cs with
    | some n => some n
    | none => parseSignedDec cs

/-- Runtime values a coerced record field can hold after the processing in
`handleUpload`: `null`, a string, a number, a boolean (reachable only
through `JSON.parse`), or an array of values. -/
inductive JsValue where
  | vnull
  | vbool (b : Bool)
  | vnum (n : JsNum)
  | vstr (s : String)
  | varr (xs : List JsValue)
deriving Repr

mutual

/-- Decidable equality of `JsValue` (written by hand: `deriving` does not
handle the nested `List JsValue` occurrence). -/
def jsValueDecEq : (a b : JsValue) → Decidable (a = b)
  | JsValue.vnull, JsValue.vnull => isTrue rfl
  | JsValue.vbool a, JsValue.vbool b =>
    match decEq a b with
    | isTrue h => isTrue (congrArg JsValue.vbool h)
    | isFalse h => isFalse (fun hh => by cases hh; exact h rfl)
  | JsValue.vnum a, JsValue.vnum b =>
    match decEq a b with
    | isTrue h => isTrue (congrArg JsValue.vnum h)
    | isFalse h => isFalse (fun hh => by cases hh; exact h rfl)
  | JsValue.vstr a, JsValue.vstr b =>
    match decEq a b with
    | isTrue h => isTrue (congrArg JsValue.vstr h)
    | isFalse h => isFalse (fun hh => by cases hh; exact h rfl)
  | JsValue.varr a, JsValue.varr b =>
    match jsValueListDecEq a b with
    | isTrue h => isTrue (congrArg JsValue.varr h)
    | isFalse h => isFalse (fun hh => by cases hh; exact h rfl)
  | JsValue.vnull, JsValue.vbool _ => isFalse (fun h => JsValue.noConfusion h)
  | JsValue.vnull, JsValue.vnum _ => isFalse (fun h => JsValue.noConfusion h)
  | JsValue.vnull, JsValue.vstr _ => isFalse (fun h => JsValue.noConfusion h)
  | JsValue.vnull, JsValue.varr _ => isFalse (fun h => JsValue.noConfusion h)
  | JsValue.vbool _, JsValue.vnull => isFalse (fun h => JsValue.noConfusion h)
  | JsValue.vbool _, JsValue.vnum _ => isFalse (fun h => JsValue.noConfusion h)
  | JsValue.vbool _, JsValue.vstr _ => isFalse (fun h => JsValue.noConfusion h)
  | JsValue.vbool _, JsValue.varr _ => isFalse (fun h => JsValue.noConfusion h)
  | JsValue.vnum _, JsValue.vnull => isFalse (fun h => JsValue.noConfusion h)
  | JsValue.vnum _, JsValue.vbool _ => isFalse (fun h => JsValue.noConfusion h)
  | JsValue.vnum _, JsValue.vstr _ => isFalse (fun h => JsValue.noConfusion h)
  | JsValue.vnum _, JsValue.varr _ => isFalse (fun h => JsValue.noConfusion h)
  | JsValue.vstr _, JsValue.vnull => isFalse (fun h => JsValue.noConfusion h)
  | JsValue.vstr _, JsValue.vbool _ => isFalse (fun h => JsValue.noConfusion h)
  | JsValue.vstr _, JsValue.vnum _ => isFalse (fun h => JsValue.noConfusion h)
  | JsValue.vstr _, JsValue.varr _ => isFalse (fun h => JsValue.noConfusion h)
  | JsValue.varr _, JsValue.vnull => isFalse (fun h => JsValue.noConfusion h)
  | JsValue.varr _, JsValue.vbool _ => isFalse (fun h => JsValue.noConfusion h)
  | JsValue.varr _, JsValue.vnum _ => isFalse (fun h => JsValue.noConfusion h)
  | JsValue.varr _, JsValue.vstr _ => isFalse (fun h => JsValue.noConfusion h)

/-- Decidable equality of lists of `JsValue`. -/
def jsValueListDecEq : (a b : List JsValue) → Decidable (a = b)
  | [], [] => isTrue rfl
  | [], _ :: _ => isFalse (fun h => List.noConfusion h)
  | _ :: _, [] => isFalse (fun h => List.noConfusion h)
  | x :: xs, y :: ys =>
    match jsValueDecEq x y, jsValueListDecEq xs ys with
    | isTrue h1, isTrue h2 => isTrue (by rw [h1, h2])
    | isFalse h1, _ => isFalse (fun hh => by cases hh; exact h1 rfl)
    | _, isFalse h2 => isFalse (fun hh => by cases hh; exact h2 rfl)

end

instance : DecidableEq JsValue := jsValueDecEq

/-- JavaScript falsiness of a `JsValue` (`null`, `false`, `0`, `""`;
arrays are always truthy). -/
def jsFalsy : JsValue → Bool
  | JsValue.vnull => true
  | JsValue.vbool b => !b
  | JsValue.vnum n => n == JsNum.finite ⟨0, 1⟩
  | JsValue.vstr s => s == ""
  | JsValue.varr _ => false

/-- Model of `String.prototype.includes`. -/
def jsIncludes (s sub : String) : Bool :=
  containsSubList s.toList sub.toList

/-- JSON insignificant whitespace skip. -/
def jsonSkipWs (cs : List Char) : List Char :=
  cs.dropWhile (fun c => c == ' ' || c == '\t' || c == '\n' || c == '\r')

/-- Parse the body of a JSON string after the opening quote; returns the
decoded string and the rest of the input.  Covers the escapes the
component can meet in practice; `\x5cu` escapes and JSON objects are
outside the modelled subset (the caller treats an unparsed input as a
thrown exception, which is the conservative direction for the fallback
branch of the array coercion). -/
def jsonStringBody : List Char → Option (List Char × List Char)
  | [] => none
  | '"' :: rest => some ([], rest)
  | '\\' :: e :: rest =>
    let dec : Option Char :=
      if e == '"' then some '"'
      else if e == '\\' then some '\\'
      else if e == '/' then some '/'
      else if e == 'n' then some '\n'
      else if e == 't' then some '\t'
      else if e == 'r' then some '\r'
      else if e == 'b' then some (Char.ofNat 8)
      else if e == 'f' then some (Char.ofNat 12)
      else none
    match dec with
    | some c => (jsonStringBody rest).map (fun p => (c :: p.1, p.2))
    | none => none
  | c :: rest => (jsonStringBody rest).map (fun p => (c :: p.1, p.2))

/-- Parse a JSON number (grammar `-? digits (. digits)? (e sign? digits)?`);
returns its exact rational value and the rest of the input. -/
def jsonNumber (cs : List Char) : Option (ExactRat × List Char) :=
  let (neg, body) :=
    match cs with
    | '-' :: r => (true, r)
    | r => (false, r)
  let (intPart, r1) := body.span isAsciiDigit
  if intPart.isEmpty then none
  else
    let (fracPart, r2) :=
      match r1 with
      | '.' :: rf =>
        let (fp, rr) := rf.span isAsciiDigit
        (fp, rr)
      | _ => ([], r1)
    if (r1.head? == some '.') && fracPart.isEmpty then none
    else
      let (expo, r3) : Option Int × List Char :=
        match r2 with
        | e :: re =>
          if e == 'e' || e == 'E' then
            let (sign, ds) :=
              match re with
              | '+' :: r => ((1 : Int), r)
              | '-' :: r => ((-1 : Int), r)
              | r => ((1 : Int), r)
            let (digs, leftover) := ds.span isAsciiDigit
            if digs.isEmpty then (none, r2)
            else (some (sign * (decDigitsVal digs : Int)), leftover)
          else (some 0, r2)
        | [] => (some 0, r2)
      match expo with
      | none => none
      | some e =>
        let mag := decimalValue (decDigitsVal (intPart ++ fracPart)) fracPart.length e
        some ((if neg then mag.neg else mag), r3)

mutual

/-- Fuel-indexed recursive-descent parser for a JSON value (model of the
host `JSON.parse`, restricted to `null` / booleans / numbers / strings /
arrays).  Returns the value and the unconsumed rest. -/
def jsonVal : Nat → List Char → Option (JsValue × List Char)
  | 0, _ => none
  | Nat.succ f, cs0 =>
    match jsonSkipWs cs0 with
    | [] => none
    | c :: rest =>
      if c == 'n' then
        match rest with
        | 'u' :: 'l' :: 'l' :: r => some (JsValue.vnull, r)
        | _ => none
      else if c == 't' then
        match rest with
        | 'r' :: 'u' :: 'e' :: r => some (JsValue.vbool true, r)
        | _ => none
      else if c == 'f' then
        match rest with
        | 'a' :: 'l' :: 's' :: 'e' :: r => some (JsValue.vbool false, r)
        | _ => none
      else if c == '"' then
        (jsonStringBody rest).map (fun p => (JsValue.vstr (String.mk p.1), p.2))
      else if c == '[' then
        match jsonSkipWs rest with
        | ']' :: r => some (JsValue.varr [], r)
        | r => jsonArrItems f r []
      else if c == '-' || isAsciiDigit c then
        (jsonNumber (c :: rest)).map (fun p => (JsValue.vnum (JsNum.finite p.1), p.2))
      else none

/-- Parse the comma-separated items of a JSON array (after the opening
bracket, first item pending), accumulating in order. -/
def jsonArrItems : Nat → List Char → List JsValue → Option (JsValue × List Char)
  | 0, _, _ => none
  | Nat.succ f, cs, acc =>
    match jsonVal f cs with
    | none => none
    | some (v, r) =>
      match jsonSkipWs r with
      | ',' :: r2 => jsonArrItems f r2 (acc ++ [v])
      | ']' :: r2 => some (JsValue.varr (acc ++ [v]), r2)
      | _ => none

end

/-- Model of `JSON.parse` on a whole string: `none` models a thrown
`SyntaxError` (caught by the component's array-coercion fallback). -/
def jsonParse (s : String) : Option JsValue :=
  match jsonVal (s.length + 2) s.toList with
  | some (v, rest) => if (jsonSkipWs rest).isEmpty then some v else none
  | none => none

/-- Days of each month in the proleptic Gregorian calendar. -/
def daysInMonth (year month : Nat) : Nat :=
  if month == 2 then
    if year % 4 == 0 && (year % 100 != 0 || year % 400 == 0) then 29 else 28
  else if month == 4 || month == 6 || month == 9 || month == 11 then 30
  else 31

/-- Left-pad a numeral with zeros to the given width. -/
def padNum (width n : Nat) : String :=
  let s := toString n
  String.mk (List.replicate (width - s.length) '0') ++ s

/-- Model of `new Date(s)` followed by `toISOString()`, restricted to the
ISO `YYYY-MM-DD` date-only strings that concern this component (ECMAScript
parses these as UTC midnight); every other input is treated as an invalid
date, which the component passes through unchanged. -/
def jsDateParse (s : String) : Option String :=
  match s.toList with
  | [y1, y2, y3, y4, '-', m1, m2, '-', d1, d2] =>
    if [y1, y2, y3, y4, m1, m2, d1, d2].all isAsciiDigit then
      let year := decDigitsVal [y1, y2, y3, y4]
      let month := decDigitsVal [m1, m2]
      let day := decDigitsVal [d1, d2]
      if 1 ≤ month && month ≤ 12 && 1 ≤ day && day ≤ daysInMonth year month then
        some (padNum 4 year ++ "-" ++ padNum 2 month ++ "-" ++ padNum 2 day
          ++ "T00:00:00.000Z")
      else none
    else none
  | _ => none

/-- One parsed CSV data row: column name to raw string value, in column
order, keys distinct (the CSV header names them once). -/
abbrev RawRecord := List (String × String)

/-- One coerced row as handed to the bulk insert. -/
abbrev CoercedRecord := List (String × JsValue)

/-- First-entry lookup in an association list (JS property access; the
CSV header names each column once, so at most one entry per key). -/
def lookupField {β : Type _} (k : String) : List (String × β) → Option β
  | [] => none
  | (a, v) :: rest => if a == k then some v else lookupField k rest

/-- Property access `row[field]` on a parsed row. -/
def getField (row : RawRecord) (field : String) : Option String :=
  lookupField field row

/-- A validation error as produced by `validateStudentData`: 1-based row
number and human-readable message. -/
structure ValidationError where
  row : Nat
  message : String
deriving DecidableEq, Repr

/-- The required columns checked by `validateStudentData`. -/
def requiredFields : List String :=
  ["first_name", "last_name", "student_email", "program_id", "center_id"]

/-- The columns given the numeric-shape check by `validateStudentData`. -/
def numericFields : List String :=
  ["program_id", "program_2_id", "center_id", "number_of_sessions",
   "educator_employee_id", "secondary_educator_employee_id"]

/-- Truthiness plus trimmed-blank test used by the required-field rule:
`!row[field] || row[field].toString().trim() === ''`. -/
def isBlankField (v : Option String) : Bool :=
  match v with
  | none => true
  | some s => s == "" || jsTrim s == ""

/-- Errors of the required-field rule on one row. -/
def requiredFieldErrors (row : RawRecord) (index : Nat) : List ValidationError :=
  requiredFields.filterMap (fun field =>
    if isBlankField (getField row field) then
      some ⟨index + 1, "Row " ++ toString (index + 1)
        ++ ": Missing required field \"" ++ field ++ "\""⟩
    else none)

/-- Errors of the intra-file and cross-store duplicate rules on one row
(`seen` holds the identifiers of earlier rows, `existing` the ones already
persisted); both checks are guarded by the truthiness of `row.student_id`. -/
def duplicateIdErrors (row : RawRecord) (index : Nat)
    (seen existing : List String) : List ValidationError :=
  match getField row "student_id" with
  | none => []
  | some sid =>
    if sid == "" then []
    else
      (if seen.contains sid then
        [⟨index + 1, "Row " ++ toString (index + 1) ++ ": Duplicate student_id \""
          ++ sid ++ "\" found in CSV file"⟩]
      else [])
      ++
      (if existing.contains sid then
        [⟨index + 1, "Row " ++ toString (index + 1) ++ ": student_id \""
          ++ sid ++ "\" already exists in the database"⟩]
      else [])

/-- Model of the email regular expression
`^[^\s@]+@[^\s@]+\.[^\s@]+$`: a run of non-space non-at characters, one
`@`, then a domain that is such a run holding a dot that is neither its
first nor its last character. -/
def emailAtomOk (cs : List Char) : Bool :=
  !cs.isEmpty && cs.all (fun c => !(isJsSpaceChar c) && c != '@')

/-- Whole-string match of the component's email regular expression. -/
def matchesEmailRegex (s : String) : Bool :=
  match splitOnCharList '@' s.toList with
  | [loc, domain] =>
    emailAtomOk loc && emailAtomOk domain &&
    ((domain.drop 1).dropLast.contains '.')
  | _ => false

/-- Errors of the email-format rule on one row (`student_email`, then
`parents_email`, each checked when truthy). -/
def emailFormatErrors (row : RawRecord) (index : Nat) : List ValidationError :=
  (match getField row "student_email" with
   | some v =>
     if v != "" && !matchesEmailRegex v then
       [⟨index + 1, "Row " ++ toString (index + 1) ++ ": Invalid student_email format"⟩]
     else []
   | none => [])
  ++
  (match getField row "parents_email" with
   | some v =>
     if v != "" && !matchesEmailRegex v then
       [⟨index + 1, "Row " ++ toString (index + 1) ++ ": Invalid parents_email format"⟩]
     else []
   | none => [])

/-- Errors of the numeric-shape rule on one row: for each designated
column, a truthy value with `isNaN(Number(value))` is flagged. -/
def numericShapeErrors (row : RawRecord) (index : Nat) : List ValidationError :=
  numericFields.filterMap (fun field =>
    match getField row field with
    | some v =>
      if v != "" && (jsStrToNumber v).isNone then
        some ⟨index + 1, "Row " ++ toString (index + 1)
          ++ ": Invalid numeric value for \"" ++ field ++ "\""⟩
      else none
    | none => none)

/-- All errors one iteration of the `rows.forEach` body pushes for one
row, in push order: required fields, duplicate identifier (intra-file
then cross-store), email formats, numeric shapes. -/
def validateRow (row : RawRecord) (index : Nat)
    (seen existing : List String) : List ValidationError :=
  requiredFieldErrors row index
    ++ duplicateIdErrors row index seen existing
    ++ emailFormatErrors row index
    ++ numericShapeErrors row index

/-- Update of the `seenIds` set after one row: a truthy `student_id` not
yet seen is added. -/
def updateSeen (row : RawRecord) (seen : List String) : List String :=
  match getField row "student_id" with
  | none => seen
  | some sid =>
    if sid == "" then seen
    else if seen.contains sid then seen
    else seen ++ [sid]

/-- The `rows.forEach` loop of `validateStudentData`, carrying the running
row index and the `seenIds` set. -/
def validateLoop (rows : List RawRecord) (index : Nat)
    (seen existing : List String) : List ValidationError :=
  match rows with
  | [] => []
  | row :: rest =>
    validateRow row index seen existing
      ++ validateLoop rest (index + 1) (updateSeen row seen) existing

/-- Embedding of `validateStudentData(rows, existingIds)`. -/
def validateStudentData (rows : List RawRecord)
    (existing : List String) : List ValidationError :=
  validateLoop rows 0 [] existing

/-- The columns numerically coerced in `handleUpload`'s `processedRows`
map (a superset of the validator's `numericFields`). -/
def numericCoerceFields : List String :=
  ["program_id", "program_2_id", "center_id", "number_of_sessions",
   "educator_employee_id", "secondary_educator_employee_id",
   "student_id", "enrollment_year"]

/-- Array coercion for `days_of_week` / `timings`: bracketed values go
through `JSON.parse` (a throw is caught and falls back to the one-element
array holding the original string), comma-separated values are split and
trimmed, anything else is wrapped as a singleton. -/
def coerceArrayValue (value : String) : JsValue :=
  if value.toList.head? == some '[' && value.toList.getLast? == some ']' then
    match jsonParse value with
    | some v => v
    | none => JsValue.varr [JsValue.vstr value]
  else if value.toList.contains ',' then
    JsValue.varr ((splitOnCharList ',' value.toList).map
      (fun item => JsValue.vstr (jsTrim (String.mk item))))
  else JsValue.varr [JsValue.vstr value]

/-- Coercion of one `(key, value)` entry of a row, mirroring the branch
order of the `Object.entries(row).forEach` body: empty string to `null`,
numeric columns whose value parses to the number, array columns, date
columns (ISO re-rendering when the date is valid, else pass-through), and
the identity default. -/
def coerceEntry (key value : String) : JsValue :=
  if value == "" then JsValue.vnull
  else
    match (if numericCoerceFields.contains key then jsStrToNumber value else none) with
    | some n => JsValue.vnum n
    | none =>
      if key == "days_of_week" || key == "timings" then
        coerceArrayValue value
      else if key == "dob" || key == "created_at" then
        match jsDateParse value with
        | some iso => JsValue.vstr iso
        | none => JsValue.vstr value
      else JsValue.vstr value

/-- Assignment `newRow[key] = v` on a coerced record: replaces the value
in place when the key exists, otherwise appends the entry. -/
def setField (r : CoercedRecord) (key : String) (v : JsValue) : CoercedRecord :=
  if r.any (fun kv => kv.1 == key) then
    r.map (fun kv => if kv.1 == key then (kv.1, v) else kv)
  else r ++ [(key, v)]

/-- Truthiness of `newRow.created_at` on a coerced record. -/
def coercedCreatedTruthy (r : CoercedRecord) : Bool :=
  match lookupField "created_at" r with
  | some v => !jsFalsy v
  | none => false

/-- Entry-wise coercion of one row (the `Object.entries` part of the
`processedRows` map, before the `created_at` stamp). -/
def coerceRowEntries (row : RawRecord) : CoercedRecord :=
  row.map (fun kv => (kv.1, coerceEntry kv.1 kv.2))

/-- One full iteration of the `processedRows` map: coerce every entry,
then stamp `created_at` with the current time (`now`, the value
`new Date().toISOString()` takes at the call) when it is not truthy. -/
def processRow (now : String) (row : RawRecord) : CoercedRecord :=
  let newRow := coerceRowEntries row
  if coercedCreatedTruthy newRow then newRow
  else setField newRow "created_at" (JsValue.vstr now)

/-- Whether a coerced record carries a non-empty (truthy) `created_at`. -/
def hasNonEmptyCreated (r : CoercedRecord) : Bool :=
  coercedCreatedTruthy r

/-- Outcome of one `handleUpload` run on the students table after a
successful parse: early return on an empty file, rejection with the
validator's error list, or a single bulk-insert call carrying the
processed rows. -/
inductive UploadOutcome where
  | emptyFile
  | validationFailed (errors : List ValidationError)
  | persisted (rows : List CoercedRecord)
deriving DecidableEq, Repr

/-- Number of bulk-insert calls an outcome performs. -/
def persistCallCount : UploadOutcome → Nat
  | UploadOutcome.persisted _ => 1
  | _ => 0

/-- Embedding of the `handleUpload` control flow for `tableName ===
'students'` from the point where the CSV parse has delivered `rows`:
the empty-file guard, the validation gate (any error aborts before the
bulk insert), and otherwise the `processedRows` map followed by one
`bulkInsert` call.  `existing` is the identifier set fetched from the
store beforehand; `now` is the timestamp used by the `created_at` stamp. -/
def handleUploadStudents (now : String) (rows : List RawRecord)
    (existing : List String) : UploadOutcome :=
  if rows.length == 0 then UploadOutcome.emptyFile
  else if (validateStudentData rows existing).length > 0 then
    UploadOutcome.validationFailed (validateStudentData rows existing)
  else
    UploadOutcome.persisted (rows.map (processRow now))

/-- The user-facing rewrite used for uniqueness violations. -/
def duplicateKeyMessage : String :=
  "Some student IDs in your file already exist in the database. Please check and try again."

/-- Classification of a bulk-insert failure message: uniqueness
violations (`message.includes('duplicate key value')`) are rewritten,
every other message passes through (both the result-failure branch and
the catch branch of `handleUpload` apply this same rule). -/
def classifyBulkInsertError (message : String) : String :=
  if jsIncludes message "duplicate key value" then duplicateKeyMessage
  else message

/-- Shorthand for a students CSV row carrying the commonly exercised
columns, in file order. -/
def mkStudentRow (fn ln em pid cid sid : String) : RawRecord :=
  [("first_name", fn), ("last_name", ln), ("student_email", em),
   ("program_id", pid), ("center_id", cid), ("student_id", sid)]

/-- Identifiers of the rows processed before row `j`, as accumulated by
the validator's `seenIds` updates over the file prefix. -/
def seenUpTo (rows : List RawRecord) (j : Nat) : List String :=
  (rows.take j).foldl (fun s r => updateSeen r s) []

/-! ### Concrete scenarios used by the claims -/

/-- The three-row scenario of C3: identifiers A, B, A with B persisted. -/
def c3Rows : List RawRecord :=
  [mkStudentRow "Ann" "Ash" "ann@example.com" "1" "1" "A",
   mkStudentRow "Ben" "Bix" "ben@example.com" "1" "1" "B",
   mkStudentRow "Cal" "Cox" "cal@example.com" "1" "1" "A"]

/-- Two-row scenario for the C4 witness: row 2 both blanks a required
field and repeats row 1's identifier. -/
def c4Rows : List RawRecord :=
  [mkStudentRow "Ann" "Ash" "ann@example.com" "1" "1" "X",
   mkStudentRow "Ben" "" "ben@example.com" "1" "1" "X"]

/-- Three-row scenario of C5: row 2 blanks `last_name`, row 3 repeats
row 1's `student_id`. -/
def c5Rows : List RawRecord :=
  [mkStudentRow "Ann" "Ash" "ann@example.com" "1" "1" "S1",
   mkStudentRow "Ben" "" "ben@example.com" "1" "1" "S2",
   mkStudentRow "Cal" "Cox" "cal@example.com" "1" "1" "S1"]

/-- Fully valid two-row file for the C6 witness; neither row carries a
`created_at` column. -/
def c6Rows : List RawRecord :=
  [mkStudentRow "Ann" "Ash" "ann@example.com" "1" "1" "1001",
   mkStudentRow "Ben" "Bix" "ben@example.com" "2" "1" "1002"]

/-- The records the pipeline persists for `c6Rows` (both stamped). -/
def c6Out : List CoercedRecord :=
  [[("first_name", JsValue.vstr "Ann"),
    ("last_name", JsValue.vstr "Ash"),
    ("student_email", JsValue.vstr "ann@example.com"),
    ("program_id", JsValue.vnum (JsNum.finite ⟨1, 1⟩)),
    ("center_id", JsValue.vnum (JsNum.finite ⟨1, 1⟩)),
    ("student_id", JsValue.vnum (JsNum.finite ⟨1001, 1⟩)),
    ("created_at", JsValue.vstr "2025-06-01T00:00:00.000Z")],
   [("first_name", JsValue.vstr "Ben"),
    ("last_name", JsValue.vstr "Bix"),
    ("student_email", JsValue.vstr "ben@example.com"),
    ("program_id", JsValue.vnum (JsNum.finite ⟨2, 1⟩)),
    ("center_id", JsValue.vnum (JsNum.finite ⟨1, 1⟩)),
    ("student_id", JsValue.vnum (JsNum.finite ⟨1002, 1⟩)),
    ("created_at", JsValue.vstr "2025-06-01T00:00:00.000Z")]]

/-- A row with well-formed addresses in both email columns. -/
def c8GoodRow : RawRecord :=
  mkStudentRow "Ann" "Ash" "bob@example.com" "1" "1" "A"
    ++ [("parents_email", "mom@example.com")]

/-- Like `c8GoodRow` with a TLD-less primary address. -/
def c8BadStudentRow : RawRecord :=
  mkStudentRow "Ann" "Ash" "bob@example" "1" "1" "A"
    ++ [("parents_email", "mom@example.com")]

/-- Like `c8GoodRow` with a TLD-less secondary address. -/
def c8BadParentsRow : RawRecord :=
  mkStudentRow "Ann" "Ash" "bob@example.com" "1" "1" "A"
    ++ [("parents_email", "mom@example")]

/-- Like `c8GoodRow` with both addresses TLD-less. -/
def c8BadBothRow : RawRecord :=
  mkStudentRow "Ann" "Ash" "bob@example" "1" "1" "A"
    ++ [("parents_email", "mom@example")]

/-- Two otherwise-valid rows with no usable `student_id`: the column is
absent on the first row and empty on the second. -/
def c10Rows : List RawRecord :=
  [[("first_name", "Ann"), ("last_name", "Ash"),
    ("student_email", "ann@example.com"), ("program_id", "1"), ("center_id", "1")],
   [("first_name", "Ben"), ("last_name", "Bix"),
    ("student_email", "ben@example.com"), ("program_id", "1"), ("center_id", "1"),
    ("student_id", "")]]

/-! ### Helper lemmas -/

theorem lookupField_replace (r : CoercedRecord) (k : String) (v : JsValue)
    (h : r.any (fun kv => kv.1 == k) = true) :
    lookupField k (r.map (fun kv => if kv.1 == k then (kv.1, v) else kv)) = some v := by
  induction r with
  | nil => simp at h
  | cons hd tl ih =>
    obtain ⟨a, b⟩ := hd
    simp only [List.any_cons, Bool.or_eq_true] at h
    simp only [List.map_cons]
    cases hab : (a == k) with
    | true => simp [lookupField, hab]
    | false =>
      have h' : tl.any (fun kv => kv.1 == k) = true := by
        rcases h with h | h
        · rw [hab] at h
          exact absurd h (by simp)
        · exact h
      simpa [lookupField, hab] using ih h'

theorem lookupField_append_single (r : CoercedRecord) (k : String) (v : JsValue)
    (h : r.any (fun kv => kv.1 == k) = false) :
    lookupField k (r ++ [(k, v)]) = some v := by
  induction r with
  | nil => simp [lookupField]
  | cons hd tl ih =>
    obtain ⟨a, b⟩ := hd
    simp only [List.any_cons, Bool.or_eq_false_iff] at h
    simp only [List.cons_append, lookupField, h.1, Bool.false_eq_true, if_false]
    exact ih h.2

theorem lookupField_setField (r : CoercedRecord) (k : String) (v : JsValue) :
    lookupField k (setField r k v) = some v := by
  unfold setField
  by_cases h : r.any (fun kv => kv.1 == k) = true
  · rw [if_pos h]
    exact lookupField_replace r k v h
  · rw [if_neg h]
    refine lookupField_append_single r k v ?_
    cases hr : r.any (fun kv => kv.1 == k) with
    | true => exact absurd hr h
    | false => rfl

theorem validateLoop_append (xs ys : List RawRecord) (i : Nat)
    (seen existing : List String) :
    validateLoop (xs ++ ys) i seen existing =
      validateLoop xs i seen existing
        ++ validateLoop ys (i + xs.length)
            (xs.foldl (fun s r => updateSeen r s) seen) existing := by
  induction xs generalizing i seen with
  | nil => simp [validateLoop]
  | cons x xs ih =>
    simp only [List.cons_append, validateLoop, List.foldl_cons, List.length_cons,
      List.append_eq]
    rw [ih (i + 1) (updateSeen x seen)]
    simp [List.append_assoc, Nat.add_assoc, Nat.add_comm 1 xs.length]

theorem validateStudentData_singleton (row : RawRecord) (existing : List String) :
    validateStudentData [row] existing = validateRow row 0 [] existing := by
  simp [validateStudentData, validateLoop]

/-! ### Claims -/

/-- C1 counterexample: type coercion is not a pure function of the
RawRecord and the schema alone — a record with no `created` timestamp
field is stamped with the current time, so two coercion runs at
different instants produce different CoercedRecords for the same input. -/
theorem coercion_not_pure_counterexample :
    processRow "2025-01-01T00:00:00.000Z" [("first_name", "Ada")]
      ≠ processRow "2025-01-02T00:00:00.000Z" [("first_name", "Ada")] := by
  decide

/-- C1 (amended): coercion of a row is a pure function of the RawRecord
and the wall-clock timestamp supplied to the `created_at` stamp, and it
is independent of that timestamp exactly when the record already carries
a truthy coerced `created` value: two runs agree if and only if the
coerced record's `created_at` is truthy or the two timestamps coincide. -/
theorem coercion_deterministic_iff (now₁ now₂ : String) (row : RawRecord) :
    processRow now₁ row = processRow now₂ row ↔
      (coercedCreatedTruthy (coerceRowEntries row) = true ∨ now₁ = now₂) := by
  unfold processRow
  by_cases h : coercedCreatedTruthy (coerceRowEntries row) = true
  · simp [h]
  · rw [if_neg h, if_neg h]
    constructor
    · intro heq
      have hl := congrArg (lookupField "created_at") heq
      rw [lookupField_setField, lookupField_setField] at hl
      right
      have : JsValue.vstr now₁ = JsValue.vstr now₂ := by simpa using hl
      cases this
      rfl
    · intro hor
      rcases hor with hor | hor
      · exact absurd hor h
      · rw [hor]

/-- C1 witness: a record whose `created` field coerces to a truthy value
is coerced identically at two different instants. -/
theorem coercion_deterministic_iff_witness :
    processRow "2025-01-01T00:00:00.000Z" [("first_name", "Ada"), ("created_at", "2024-01-05")]
      = processRow "2025-01-02T00:00:00.000Z" [("first_name", "Ada"), ("created_at", "2024-01-05")] :=
  (coercion_deterministic_iff "2025-01-01T00:00:00.000Z" "2025-01-02T00:00:00.000Z"
    [("first_name", "Ada"), ("created_at", "2024-01-05")]).mpr (Or.inl (by decide))

/-- C3: on rows with identifiers [A, B, A] and existing store {B}, the
validator emits exactly the cross-store "already exists" error on row 2
and the intra-file duplicate error on row 3 (not on row 1, the first
occurrence), two errors in total. -/
theorem duplicate_detection_symmetry :
    validateStudentData c3Rows ["B"] =
      [⟨2, "Row 2: student_id \"B\" already exists in the database"⟩,
       ⟨3, "Row 3: Duplicate student_id \"A\" found in CSV file"⟩] ∧
    2 ≤ (validateStudentData c3Rows ["B"]).length := by
  constructor
  · decide
  · decide

/-- C4: the validator short-circuits nothing — for every row sequence and
every row position `j`, the full output is the errors of the rows before
`j` (in file order), followed contiguously by the errors of all four
rules on row `j` in evaluation order (required fields, intra-file and
cross-store duplicates, email formats, numeric shapes), followed by the
errors of the later rows. -/
theorem validator_no_short_circuit (rows : List RawRecord) (existing : List String)
    (j : Nat) (h : j < rows.length) :
    ∃ suffix, validateStudentData rows existing =
      validateStudentData (rows.take j) existing
        ++ (requiredFieldErrors (rows.get ⟨j, h⟩) j
            ++ duplicateIdErrors (rows.get ⟨j, h⟩) j (seenUpTo rows j) existing
            ++ emailFormatErrors (rows.get ⟨j, h⟩) j
            ++ numericShapeErrors (rows.get ⟨j, h⟩) j)
        ++ suffix := by
  refine ⟨validateLoop (rows.drop (j + 1)) (j + 1)
    (updateSeen (rows.get ⟨j, h⟩) (seenUpTo rows j)) existing, ?_⟩
  have hlen : (rows.take j).length = j := by
    rw [List.length_take]
    exact Nat.min_eq_left (Nat.le_of_lt h)
  have hdrop : rows.drop j = rows.get ⟨j, h⟩ :: rows.drop (j + 1) :=
    List.drop_eq_getElem_cons h
  have hsplit : validateStudentData rows existing =
      validateLoop (rows.take j ++ rows.drop j) 0 [] existing := by
    rw [List.take_append_drop]
    rfl
  rw [hsplit, validateLoop_append, hdrop]
  have hseen : (rows.take j).foldl (fun s r => updateSeen r s) [] = seenUpTo rows j := rfl
  rw [hlen, hseen]
  simp only [Nat.zero_add, validateLoop, validateRow]
  simp [validateStudentData, List.append_assoc]

/-- Character-list trim of a string rejected by `Number` is non-empty:
`NaN` results only from a non-blank trimmed body. -/
theorem jsTrim_ne_empty_of_nan (v : String) (h : jsStrToNumber v = none) :
    (jsTrim v == "") = false := by
  cases hb : (jsTrim v == "") with
  | false => rfl
  | true =>
    have hmk : jsTrim v = "" := by simpa using hb
    have hnil : jsTrimChars v.toList = [] := by
      have := congrArg String.data hmk
      simpa [jsTrim] using this
    rw [jsStrToNumber] at h
    rw [hnil] at h
    simp at h

theorem mem_validate_of_mem_numeric (row : RawRecord) (existing : List String)
    (e : ValidationError) (he : e ∈ numericShapeErrors row 0) :
    e ∈ validateStudentData [row] existing := by
  simp only [validateStudentData, validateLoop, validateRow, List.append_nil]
  simp only [List.mem_append]
  exact Or.inr he

/-- C2 counterexample: the coercion's numeric designation covers
`student_id`, and `"abc"` in that column passes through coercion as the
literal string without any validator error at all — the validator's
numeric-shape rule does not cover every numerically coerced column. -/
theorem numeric_designation_mismatch :
    numericCoerceFields.contains "student_id" = true ∧
    coerceEntry "student_id" "abc" = JsValue.vstr "abc" ∧
    validateStudentData
      [mkStudentRow "Ann" "Ash" "ann@example.com" "1" "1" "abc"] [] = [] := by
  refine ⟨by decide, by decide, by decide⟩

/-- C2 (amended): for every column in the validator's numeric list
(`program_id`, `program_2_id`, `center_id`, `number_of_sessions`,
`educator_employee_id`, `secondary_educator_employee_id`), a non-blank
value that does not parse as a number passes through coercion as the
original string unchanged, and the validator independently emits the
numeric type error for that row and column; the two extra columns the
coercion also treats numerically (`student_id`, `enrollment_year`) get
the same pass-through but no validator error. -/
theorem numeric_fallback_and_validator_flag (field v : String)
    (hf : field ∈ numericFields) (hv : v ≠ "") (hnan : jsStrToNumber v = none) :
    coerceEntry field v = JsValue.vstr v ∧
    (⟨1, "Row 1: Invalid numeric value for \"" ++ field ++ "\""⟩ : ValidationError) ∈
      validateStudentData [[(field, v)]] [] := by
  have hv' : (v == "") = false := by
    cases hb : (v == "") with
    | true => exact absurd (by simpa using hb) hv
    | false => rfl
  simp only [numericFields] at hf
  fin_cases hf <;>
    exact ⟨by simp [coerceEntry, numericCoerceFields, hv', hnan],
      mem_validate_of_mem_numeric _ _ _ (by
        simp [numericShapeErrors, numericFields, getField, lookupField, hv', hnan, hv]
        try decide)⟩

/-- C2 witness: the amended statement at `program_id` and value `abc`. -/
theorem numeric_fallback_witness :
    coerceEntry "program_id" "abc" = JsValue.vstr "abc" ∧
    (⟨1, "Row 1: Invalid numeric value for \"program_id\""⟩ : ValidationError) ∈
      validateStudentData [[("program_id", "abc")]] [] :=
  numeric_fallback_and_validator_flag "program_id" "abc"
    (by decide) (by decide) (by decide)

/-- C4 witness: the decomposition theorem applied at the second row of a
file whose second row violates both the required-field rule and the
intra-file duplicate rule, together with the concrete output showing the
two distinct error entries for that row. -/
theorem validator_no_short_circuit_witness :
    (∃ suffix, validateStudentData c4Rows [] =
      validateStudentData (c4Rows.take 1) []
        ++ (requiredFieldErrors (c4Rows.get ⟨1, by decide⟩) 1
            ++ duplicateIdErrors (c4Rows.get ⟨1, by decide⟩) 1 (seenUpTo c4Rows 1) []
            ++ emailFormatErrors (c4Rows.get ⟨1, by decide⟩) 1
            ++ numericShapeErrors (c4Rows.get ⟨1, by decide⟩) 1)
        ++ suffix) ∧
    validateStudentData c4Rows [] =
      [⟨2, "Row 2: Missing required field \"last_name\""⟩,
       ⟨2, "Row 2: Duplicate student_id \"X\" found in CSV file"⟩] :=
  ⟨validator_no_short_circuit c4Rows [] 1 (by decide), by decide⟩

/-- C5: on the three-row scenario the whole batch is rejected with
exactly the two validation errors reported together (blank `last_name`
on row 2 and duplicate identifier on row 3), and no bulk-insert call is
made, whatever the current timestamp is. -/
theorem validation_gate_rejects_batch (now : String) :
    handleUploadStudents now c5Rows [] = UploadOutcome.validationFailed
      [⟨2, "Row 2: Missing required field \"last_name\""⟩,
       ⟨3, "Row 3: Duplicate student_id \"S1\" found in CSV file"⟩] ∧
    (validateStudentData c5Rows []).length = 2 ∧
    persistCallCount (handleUploadStudents now c5Rows []) = 0 :=
  ⟨rfl, rfl, rfl⟩

/-- C5 witness: the rejection at a concrete timestamp. -/
theorem validation_gate_rejects_batch_witness :
    handleUploadStudents "2025-06-01T00:00:00.000Z" c5Rows []
      = UploadOutcome.validationFailed
        [⟨2, "Row 2: Missing required field \"last_name\""⟩,
         ⟨3, "Row 3: Duplicate student_id \"S1\" found in CSV file"⟩] ∧
    (validateStudentData c5Rows []).length = 2 ∧
    persistCallCount (handleUploadStudents "2025-06-01T00:00:00.000Z" c5Rows []) = 0 :=
  validation_gate_rejects_batch "2025-06-01T00:00:00.000Z"

/-- A record processed by the pipeline always leaves with a truthy
`created_at`: either the coerced row already had one, or the stamp wrote
the (non-empty) current timestamp. -/
theorem processRow_created (now : String) (row : RawRecord) (hnow : now ≠ "") :
    hasNonEmptyCreated (processRow now row) = true := by
  unfold processRow hasNonEmptyCreated
  by_cases h : coercedCreatedTruthy (coerceRowEntries row) = true
  · rw [if_pos h]
    exact h
  · rw [if_neg h]
    unfold coercedCreatedTruthy
    rw [lookupField_setField]
    simp [jsFalsy, hnow]

/-- C6: whenever the pipeline reaches the bulk insert, the single call
carries exactly one coerced record per input row, and every one of them
has a non-empty `created` timestamp — a record whose coerced `created_at`
was absent or falsy has been stamped with the current time. -/
theorem persisted_records_have_created (now : String) (rows : List RawRecord)
    (existing : List String) (out : List CoercedRecord)
    (hnow : now ≠ "")
    (h : handleUploadStudents now rows existing = UploadOutcome.persisted out) :
    out = rows.map (processRow now) ∧ out.length = rows.length ∧
      ∀ r ∈ out, hasNonEmptyCreated r = true := by
  unfold handleUploadStudents at h
  split at h
  · exact absurd h (fun hh => UploadOutcome.noConfusion hh)
  · split at h
    · exact absurd h (fun hh => UploadOutcome.noConfusion hh)
    · have hout : rows.map (processRow now) = out := by
        injection h
      refine ⟨hout.symm, ?_, ?_⟩
      · rw [← hout]
        simp
      · intro r hr
        rw [← hout] at hr
        obtain ⟨row, _, rfl⟩ := List.mem_map.mp hr
        exact processRow_created now row hnow

/-- C6 witness: the theorem applied to the fully valid two-row file with
no source `created_at`, whose bulk insert carries two records, both
stamped with the current time. -/
theorem persisted_records_have_created_witness :
    c6Out = c6Rows.map (processRow "2025-06-01T00:00:00.000Z") ∧
    c6Out.length = c6Rows.length ∧
    ∀ r ∈ c6Out, hasNonEmptyCreated r = true :=
  persisted_records_have_created "2025-06-01T00:00:00.000Z" c6Rows [] c6Out
    (by decide) (by decide)

/-- C7: array-designated columns (`days_of_week`, `timings`) coerce a
bracketed list by JSON parsing, a comma-separated value by splitting on
commas and trimming each segment, any other non-blank value to a
one-element sequence, a bracketed value that fails to parse to the
one-element sequence holding the original string, and the empty string
to `null` (the absent marker), not an empty sequence. -/
theorem array_coercion_cases (field : String)
    (hf : field = "days_of_week" ∨ field = "timings") :
    coerceEntry field "[\"Monday\",\"Tuesday\"]"
        = JsValue.varr [JsValue.vstr "Monday", JsValue.vstr "Tuesday"] ∧
    coerceEntry field "Monday, Wednesday"
        = JsValue.varr [JsValue.vstr "Monday", JsValue.vstr "Wednesday"] ∧
    coerceEntry field "Single" = JsValue.varr [JsValue.vstr "Single"] ∧
    coerceEntry field "[abc]" = JsValue.varr [JsValue.vstr "[abc]"] ∧
    coerceEntry field "" = JsValue.vnull := by
  rcases hf with rfl | rfl
  · exact ⟨by decide, by decide, by decide, by decide, by decide⟩
  · exact ⟨by decide, by decide, by decide, by decide, by decide⟩

/-- C7 witness: the array-coercion cases at the `days_of_week` column. -/
theorem array_coercion_cases_witness :
    coerceEntry "days_of_week" "[\"Monday\",\"Tuesday\"]"
        = JsValue.varr [JsValue.vstr "Monday", JsValue.vstr "Tuesday"] ∧
    coerceEntry "days_of_week" "Monday, Wednesday"
        = JsValue.varr [JsValue.vstr "Monday", JsValue.vstr "Wednesday"] ∧
    coerceEntry "days_of_week" "Single" = JsValue.varr [JsValue.vstr "Single"] ∧
    coerceEntry "days_of_week" "[abc]" = JsValue.varr [JsValue.vstr "[abc]"] ∧
    coerceEntry "days_of_week" "" = JsValue.vnull :=
  array_coercion_cases "days_of_week" (Or.inl rfl)

/-- C8: `bob@example` (no TLD) fails the email shape and
`bob@example.com` passes; the rule is applied independently to the
primary (`student_email`) and secondary (`parents_email`) columns — a bad
value in either column yields exactly the format error for that column,
and bad values in both yield both errors. -/
theorem email_format_rule :
    matchesEmailRegex "bob@example" = false ∧
    matchesEmailRegex "bob@example.com" = true ∧
    validateStudentData [c8GoodRow] [] = [] ∧
    validateStudentData [c8BadStudentRow] [] =
      [⟨1, "Row 1: Invalid student_email format"⟩] ∧
    validateStudentData [c8BadParentsRow] [] =
      [⟨1, "Row 1: Invalid parents_email format"⟩] ∧
    validateStudentData [c8BadBothRow] [] =
      [⟨1, "Row 1: Invalid student_email format"⟩,
       ⟨1, "Row 1: Invalid parents_email format"⟩] :=
  ⟨by decide, by decide, by decide, by decide, by decide, by decide⟩

/-- C9: the bulk-insert failure classifier rewrites exactly the messages
that indicate a uniqueness violation (those containing the backing
store's `duplicate key value` marker) to the user-facing
already-exists explanation, and passes every other message through
unchanged. -/
theorem bulk_error_classification (message : String) :
    (jsIncludes message "duplicate key value" = true →
      classifyBulkInsertError message = duplicateKeyMessage) ∧
    (jsIncludes message "duplicate key value" = false →
      classifyBulkInsertError message = message) := by
  constructor
  · intro h
    simp [classifyBulkInsertError, h]
  · intro h
    simp [classifyBulkInsertError, h]

/-- C9 witness: a uniqueness-violation message is rewritten and an
unrelated failure message passes through unchanged. -/
theorem bulk_error_classification_witness :
    classifyBulkInsertError
        "ERROR: duplicate key value violates unique constraint \"students_pkey\""
      = duplicateKeyMessage ∧
    classifyBulkInsertError "network timeout" = "network timeout" :=
  ⟨(bulk_error_classification
      "ERROR: duplicate key value violates unique constraint \"students_pkey\"").1
    (by decide),
   (bulk_error_classification "network timeout").2 (by decide)⟩

/-- C10: a row whose `student_id` is missing or empty skips both
duplicate rules entirely (no duplicate error, and the identifier is not
recorded as seen); `student_id` is not a required field, so such rows can
pass validation with no identifier-related error at all — as the
two-row scenario with a non-empty existing-identifier store shows. -/
theorem missing_id_skips_duplicate_rules :
    (∀ (row : RawRecord) (i : Nat) (seen existing : List String),
      (getField row "student_id" = none ∨ getField row "student_id" = some "") →
      duplicateIdErrors row i seen existing = [] ∧ updateSeen row seen = seen) ∧
    requiredFields.contains "student_id" = false ∧
    validateStudentData c10Rows ["S1"] = [] := by
  refine ⟨?_, by decide, by decide⟩
  intro row i seen existing h
  rcases h with h | h <;>
    simp [duplicateIdErrors, updateSeen, h]

/-- C10 witness: the skip rules at a concrete row with no `student_id`,
non-trivial seen and existing sets included. -/
theorem missing_id_skips_duplicate_rules_witness :
    duplicateIdErrors [("first_name", "Ann")] 0 ["S1"] ["S1"] = [] ∧
    updateSeen [("first_name", "Ann")] ["S1"] = ["S1"] :=
  missing_id_skips_duplicate_rules.1 [("first_name", "Ann")] 0 ["S1"] ["S1"]
    (Or.inl (by decide))

end CsvPipeline
